import Mathlib

/-!
Shallow embedding of `src/app.py` (a Flask service that re-signs an iOS
application archive with a previously uploaded identity and publishes the
result), together with theorems settling the frozen claims about it.

External effects (the zip reader, the `zsign` subprocess, the `transfer.sh`
HTTP transport, the filesystem) are modelled as explicit inputs describing
the outcome the outside world produces; the Python control flow over those
outcomes is translated line by line from the source.
-/

/-! ### Python string primitives used by the source -/

/-- Python truthiness of an optional string (`None` and `''` are falsy),
as used by `all([...])` and `if not x` in the source. -/
def pyFalsy : Option String → Bool
  | none => true
  | some s => s == ""

/-- Negation of `pyFalsy`: the optional string is a non-`None`, non-empty value. -/
def pyTruthy (x : Option String) : Bool := !(pyFalsy x)

/-- Python `sub in s` (substring membership), over character lists. -/
def pyIn (sub s : String) : Bool := decide (List.IsInfix sub.data s.data)

/-- Python `s.endswith(suffix)`, over character lists. -/
def pyEndsWith (s suf : String) : Bool := suf.data.isSuffixOf s.data

/-- Python `s.lower()` restricted to ASCII case folding, which is all the
source ever feeds it (file-name extensions). -/
def pyLower (s : String) : String := ⟨s.data.map Char.toLower⟩

/-- Python `s.strip()`: remove leading and trailing whitespace. -/
def pyStrip (s : String) : String :=
  ⟨((s.data.dropWhile Char.isWhitespace).reverse.dropWhile Char.isWhitespace).reverse⟩

/-- The characters after the last `'.'` of the list; `[]` when no `'.'` occurs.
For a filename containing a dot this is Python's `filename.rsplit('.', 1)[1]`. -/
def afterLastDot : List Char → List Char
  | [] => []
  | c :: cs => if c = '.' ∧ ¬ cs.contains '.' then cs else afterLastDot cs

/-! ### `allowed_file` (src/app.py lines 26-27) -/

/-- Source: `return '.' in filename and filename.rsplit('.', 1)[1].lower() in allowed_extensions`. -/
def allowed_file (filename : String) (allowed_extensions : List String) : Bool :=
  filename.data.contains '.' &&
    allowed_extensions.contains (pyLower ⟨afterLastDot filename.data⟩)

/-! ### `extract_app_info` (src/app.py lines 29-56) -/

/-- The decoded `Info.plist` dictionary: the three keys the source reads,
each possibly absent. -/
structure InfoPlist where
  CFBundleDisplayName : Option String
  CFBundleName : Option String
  CFBundleIdentifier : Option String

/-- Python `x or y` for an optional string `x` (`.get` result) and a string `y`. -/
def pyOrStr (x : Option String) (y : String) : String :=
  match x with
  | some s => if s = "" then y else s
  | none => y

/-- Source line 49: `plist_data.get('CFBundleDisplayName') or plist_data.get('CFBundleName', 'Unknown App')`. -/
def appNameOf (p : InfoPlist) : String :=
  pyOrStr p.CFBundleDisplayName (p.CFBundleName.getD "Unknown App")

/-- Source line 50: `plist_data.get('CFBundleIdentifier', 'Unknown Bundle ID')`. -/
def bundleIdOf (p : InfoPlist) : String :=
  p.CFBundleIdentifier.getD "Unknown Bundle ID"

/-- A zip archive as the source observes it: whether `zipfile.ZipFile` opens it
at all (`ok = false` models a corrupt / non-zip input whose open raises),
its entry name list, and for each entry the decoded plist
(`none` models `zip_ref.open`/`plistlib.load` raising on that entry). -/
structure ZipFile where
  ok : Bool
  names : List String
  plists : String → Option InfoPlist

/-- Source lines 34-38: the first entry with `name.endswith('.app/') and '/Payload/' in name`
(the `for`/`break` loop). -/
def findAppDir (names : List String) : Option String :=
  names.find? (fun name => pyEndsWith name ".app/" && pyIn "/Payload/" name)

/-- The shapes a call of the Python `extract_app_info` can return:
a pair (each side `None` or a string), or the bare `None` produced by
falling off the end of the function body. -/
inductive ExtractRet where
  | pair (app_name bundle_id : Option String)
  | bare
deriving DecidableEq

/-- Source lines 29-56, translated branch by branch. Opening a corrupt file or a
decode failure raises and lands in the `except` branch returning `(None, None)`;
no matching `.app/` entry returns `(None, None)`; a matching entry whose
`Info.plist` is absent from the name list skips the `if` at line 45 and falls
off the end of the function, returning a bare `None`. -/
def extract_app_info (z : ZipFile) : ExtractRet :=
  if !z.ok then .pair none none
  else
    match findAppDir z.names with
    | none => .pair none none
    | some app_dir =>
      let info_plist_path := app_dir ++ "Info.plist"
      if z.names.contains info_plist_path then
        match z.plists info_plist_path with
        | none => .pair none none
        | some plist_data => .pair (some (appNameOf plist_data)) (some (bundleIdOf plist_data))
      else .bare

/-! ### The stored signing identity (src/app.py lines 21-24) -/

/-- The three module-level globals holding the uploaded identity; each starts
as `None`. -/
structure IdentityState where
  stored_p12_path : Option String
  stored_password : Option String
  stored_mobileprovision_path : Option String
deriving DecidableEq

/-- The state at process start (lines 22-24). -/
def initialIdentity : IdentityState := ⟨none, none, none⟩

/-- Python `all([stored_p12_path, stored_password, stored_mobileprovision_path])`
(lines 61 and 171): every field is a truthy value. -/
def identityTruthy (st : IdentityState) : Bool :=
  pyTruthy st.stored_p12_path && pyTruthy st.stored_password &&
    pyTruthy st.stored_mobileprovision_path

/-! ### `sign_ipa_with_zsign` (src/app.py lines 58-82) -/

/-- Outcome of the one `subprocess.run` of zsign: a normal exit with a return
code and captured stderr, or the call raising (e.g. the binary is missing). -/
inductive SubprocessOutcome where
  | exits (returncode : Nat) (stderr : String)
  | raised (msg : String)
deriving DecidableEq

/-- What a call of `sign_ipa_with_zsign` produced: the `(success, message)`
pair it returns, plus how many times the external subprocess was launched. -/
structure ZsignResult where
  success : Bool
  message : String
  procCalls : Nat
deriving DecidableEq

/-- Source lines 58-82: re-check the three globals, run zsign once, succeed
exactly on return code 0, otherwise report `zsign error: <stderr>`; a raised
exception is caught and reported as `Signing error: <e>`. -/
def sign_ipa_with_zsign (st : IdentityState) (proc : SubprocessOutcome) : ZsignResult :=
  if !(identityTruthy st) then ⟨false, "Certificates not uploaded", 0⟩
  else
    match proc with
    | .exits returncode stderr =>
      if returncode = 0 then ⟨true, "IPA signed successfully", 1⟩
      else ⟨false, "zsign error: " ++ stderr, 1⟩
    | .raised msg => ⟨false, "Signing error: " ++ msg, 1⟩

/-! ### `upload_to_transfer_sh` (src/app.py lines 84-95) -/

/-- Outcome of the single `requests.post` to transfer.sh: a response with a
status code and text body, or the open/post raising. -/
inductive TransportResult where
  | response (status_code : Nat) (body : String)
  | raised (msg : String)
deriving DecidableEq

/-- Source lines 84-95: one post; on status 200 return `response.text.strip()`,
on any other status return `None`, and a raised exception is caught and
returns `None`. The second component counts upload attempts made. -/
def upload_to_transfer_sh (tr : TransportResult) : Option String × Nat :=
  match tr with
  | .response status_code body =>
    if status_code = 200 then (some (pyStrip body), 1) else (none, 1)
  | .raised _ => (none, 1)

/-- The condition under which the caller-observed result of
`upload_to_transfer_sh` is falsy (the caller tests `if not url`). -/
def uploadFails (tr : TransportResult) : Bool :=
  match tr with
  | .response status_code body => status_code != 200 || pyStrip body == ""
  | .raised _ => true

/-! ### `create_manifest_plist` (src/app.py lines 97-114) -/

/-- A property-list value: string, array or dictionary. -/
inductive PValue where
  | str (s : String)
  | arr (items : List PValue)
  | dict (entries : List (String × PValue))

/-- Source lines 99-112: the manifest dictionary, field for field. -/
def create_manifest_plist (app_name bundle_id ipa_url : String) : PValue :=
  .dict [("items", .arr [
    .dict [
      ("assets", .arr [
        .dict [("kind", .str "software-package"), ("url", .str ipa_url)]]),
      ("metadata", .dict [
        ("bundle-identifier", .str bundle_id),
        ("bundle-version", .str "1.0"),
        ("kind", .str "software"),
        ("title", .str app_name)])]])]

/-- Dictionary lookup in a `PValue.dict` (first binding wins, as in a plist). -/
def plistGet (v : PValue) (key : String) : Option PValue :=
  match v with
  | .dict entries => (entries.find? (fun e => e.1 == key)).map (fun e => e.2)
  | _ => none

/-- The list of items of a manifest, when the `items` key holds an array. -/
def plistItems (v : PValue) : Option (List PValue) :=
  match plistGet v "items" with
  | some (.arr l) => some l
  | _ => none

/-! ### HTTP request/response shells -/

/-- A JSON response as the handlers build it: HTTP status, `message`, and for
the signing success the extra `itms_url` field. -/
structure HttpResponse where
  status : Nat
  message : String
  itms_url : Option String
deriving DecidableEq

/-! ### `upload_certificates` (src/app.py lines 116-158) -/

/-- A `/uploadCert` request: presence of each multipart file, the two client
file names, the `password` form field (`''` when absent, via `.get('password','')`),
a token standing for the `uuid4()` values of this request, and whether either
`file.save` call raises (disk failure). -/
structure CertRequest where
  hasP12 : Bool
  hasProvision : Bool
  p12Filename : String
  provisionFilename : String
  password : String
  token : String
  saveRaises : Bool
deriving DecidableEq

/-- The server path the p12 file of an accepted upload is saved under
(lines 138, 141). -/
def p12PathOf (req : CertRequest) : String :=
  "/app/uploads/cert_" ++ req.token ++ ".p12"

/-- The server path the provisioning profile of an accepted upload is saved
under (lines 139, 142). -/
def provisionPathOf (req : CertRequest) : String :=
  "/app/uploads/profile_" ++ req.token ++ ".mobileprovision"

/-- The identity the three globals hold after an accepted upload
(lines 148-150). -/
def storedOf (req : CertRequest) : IdentityState :=
  ⟨some (p12PathOf req), some req.password, some (provisionPathOf req)⟩

/-- Source lines 116-158, branch by branch: reject missing parts, empty
password, or a wrong extension with 400 and leave the globals alone; a raised
save is caught by the handler's `except` (500), still before any assignment;
otherwise assign all three globals and answer 200. -/
def upload_certificates (st : IdentityState) (req : CertRequest) :
    IdentityState × HttpResponse :=
  if !req.hasP12 || !req.hasProvision then
    (st, ⟨400, "Missing p12 or mobileprovision file", none⟩)
  else if req.password == "" then
    (st, ⟨400, "Password is required", none⟩)
  else if !(allowed_file req.p12Filename ["p12"]) then
    (st, ⟨400, "Invalid p12 file", none⟩)
  else if !(allowed_file req.provisionFilename ["mobileprovision"]) then
    (st, ⟨400, "Invalid mobileprovision file", none⟩)
  else if req.saveRaises then
    (st, ⟨500, "Upload error: save failed", none⟩)
  else
    (storedOf req, ⟨200, "Certificates uploaded successfully", none⟩)

/-- An upload request passes every validation gate of lines 121-145. -/
def certAccepted (req : CertRequest) : Bool :=
  req.hasP12 && req.hasProvision && req.password != "" &&
    allowed_file req.p12Filename ["p12"] &&
    allowed_file req.provisionFilename ["mobileprovision"] && !req.saveRaises

/-! ### `sign_ipa` (src/app.py lines 160-226) -/

/-- A `/signIPA` request: whether the `file` part is present and its client
file name. -/
structure SignRequest where
  hasFile : Bool
  filename : String
deriving DecidableEq

/-- A filesystem event of one request: a temporary file coming into existence
or an `os.remove` of it. -/
inductive FileEvent where
  | create (p : String)
  | delete (p : String)
deriving DecidableEq

/-- The path the input archive is saved under (lines 175-177). The `uuid4`
tokens make the three per-request paths distinct. -/
def ipaPath : String := "/app/uploads/input_u1.ipa"

/-- The output path handed to zsign (line 185). -/
def signedPath : String := "/app/uploads/signed_u2.ipa"

/-- The path the manifest is written to (lines 198-201). -/
def manifestPath : String := "/app/uploads/manifest_u3.plist"

/-- The outside-world outcomes one `/signIPA` request can encounter: what
`extract_app_info` returns on the saved archive, the zsign subprocess
outcome, and the transport outcome of each of the two transfer.sh uploads. -/
structure SignEnv where
  extractRet : ExtractRet
  zsignProc : SubprocessOutcome
  publishIpa : TransportResult
  publishManifest : TransportResult

/-- Observable trace of one `/signIPA` request: the file events in order,
the number of zsign subprocess launches, and the number of transfer.sh
upload attempts. -/
structure SignTrace where
  events : List FileEvent
  zsignCalls : Nat
  publishCalls : Nat
deriving DecidableEq

/-- Source lines 160-226, branch by branch. Validation failures (400/412)
happen before the input file is saved; the metadata 400, the signing 500 and
both publish 500s return without any `os.remove`; only the success path
(lines 211-217) removes the three temporary files, once each. A bare-`None`
return of `extract_app_info` makes the tuple unpacking at line 180 raise
`TypeError`, which the handler's outermost `except` converts to a 500. The
signed output file appears when zsign succeeds; the manifest file is written
before the second upload. -/
def sign_ipa (st : IdentityState) (req : SignRequest) (env : SignEnv) :
    HttpResponse × SignTrace :=
  if !req.hasFile then
    (⟨400, "No IPA file provided", none⟩, ⟨[], 0, 0⟩)
  else if !(allowed_file req.filename ["ipa"]) then
    (⟨400, "Invalid IPA file", none⟩, ⟨[], 0, 0⟩)
  else if !(identityTruthy st) then
    (⟨412, "Certificates not uploaded. Please upload certificates first.", none⟩, ⟨[], 0, 0⟩)
  else
    let ev0 := [FileEvent.create ipaPath]
    match env.extractRet with
    | .bare =>
      (⟨500, "Signing error: cannot unpack non-iterable NoneType object", none⟩, ⟨ev0, 0, 0⟩)
    | .pair app_name_opt bundle_id_opt =>
      if pyFalsy app_name_opt || pyFalsy bundle_id_opt then
        (⟨400, "Could not extract app info from IPA", none⟩, ⟨ev0, 0, 0⟩)
      else
        let app_name := app_name_opt.getD ""
        let bundle_id := bundle_id_opt.getD ""
        let z := sign_ipa_with_zsign st env.zsignProc
        if !z.success then
          (⟨500, z.message, none⟩, ⟨ev0, z.procCalls, 0⟩)
        else
          let ev1 := ev0 ++ [FileEvent.create signedPath]
          let (ipa_url_opt, n1) := upload_to_transfer_sh env.publishIpa
          if pyFalsy ipa_url_opt then
            (⟨500, "Failed to upload signed IPA", none⟩, ⟨ev1, z.procCalls, n1⟩)
          else
            let _manifest := create_manifest_plist app_name bundle_id (ipa_url_opt.getD "")
            let ev2 := ev1 ++ [FileEvent.create manifestPath]
            let (manifest_url_opt, n2) := upload_to_transfer_sh env.publishManifest
            if pyFalsy manifest_url_opt then
              (⟨500, "Failed to upload manifest", none⟩, ⟨ev2, z.procCalls, n1 + n2⟩)
            else
              let manifest_url := manifest_url_opt.getD ""
              let itms_url := "itms-services://?action=download-manifest&url=" ++ manifest_url
              let ev3 := ev2 ++
                [FileEvent.delete ipaPath, FileEvent.delete signedPath,
                 FileEvent.delete manifestPath]
              (⟨200, "IPA signed successfully: " ++ app_name ++ " (" ++ bundle_id ++ ")",
                some itms_url⟩,
               ⟨ev3, z.procCalls, n1 + n2⟩)

/-! ### Sequences of requests against the shared identity globals -/

/-- One handled request: a `/uploadCert` or a `/signIPA`, with the outside
world's outcomes attached. -/
inductive ServerOp where
  | uploadCert (req : CertRequest)
  | signIPA (req : SignRequest) (env : SignEnv)

/-- Effect of one handled request on the three identity globals.
`sign_ipa` reads them but contains no assignment to them, so its case
returns the state unchanged. -/
def stepOp (st : IdentityState) (op : ServerOp) : IdentityState :=
  match op with
  | .uploadCert req => (upload_certificates st req).1
  | .signIPA _ _ => st

/-- State of the identity globals after a sequence of handled requests. -/
def runOps (st : IdentityState) : List ServerOp → IdentityState
  | [] => st
  | op :: rest => runOps (stepOp st op) rest

/-- The all-or-nothing shape the claims predicate of the stored identity:
either still the process-start state, or every field set by one and the same
accepted upload (whose password the validation forces non-empty). -/
def identityConsistent (st : IdentityState) : Prop :=
  st = initialIdentity ∨ ∃ req : CertRequest, certAccepted req = true ∧ st = storedOf req

/-! ### Interleaving the identity replacement with a concurrent read

The upload handler replaces the identity by three separate assignments
(src/app.py lines 148-150) and `sign_ipa_with_zsign` reads the three globals
by three separate accesses (lines 67-69), with no lock anywhere in the
source. The model below runs one writer (the three assignments, in program
order) against one reader (the three reads, in program order) under an
arbitrary interleaving of the six steps. -/

/-- One identity value as a plain triple of the three fields. -/
structure Ident3 where
  p12 : String
  pw : String
  mp : String
deriving DecidableEq

/-- One atomic step: the writer's i-th field assignment or the reader's
i-th field read. -/
inductive RWStep where
  | w1
  | w2
  | w3
  | r1
  | r2
  | r3
deriving DecidableEq

/-- Whether a step belongs to the writer. -/
def RWStep.isWrite : RWStep → Bool
  | .w1 | .w2 | .w3 => true
  | _ => false

/-- Whether a step belongs to the reader. -/
def RWStep.isRead : RWStep → Bool
  | .r1 | .r2 | .r3 => true
  | _ => false

/-- Shared-memory state of the interleaved execution: the three globals and
the reader's private buffer of values read so far. -/
structure RWState where
  stored : Ident3
  buf : Ident3
deriving DecidableEq

/-- Effect of one step: `w1`/`w2`/`w3` are the assignments of lines 148-150
writing the new identity's fields; `r1`/`r2`/`r3` are the accesses of lines
67-69 copying the current globals into the reader's command arguments. -/
def rwStep (newId : Ident3) (s : RWState) : RWStep → RWState
  | .w1 => { s with stored := { s.stored with p12 := newId.p12 } }
  | .w2 => { s with stored := { s.stored with pw := newId.pw } }
  | .w3 => { s with stored := { s.stored with mp := newId.mp } }
  | .r1 => { s with buf := { s.buf with p12 := s.stored.p12 } }
  | .r2 => { s with buf := { s.buf with pw := s.stored.pw } }
  | .r3 => { s with buf := { s.buf with mp := s.stored.mp } }

/-- Run a schedule of steps from a state. -/
def runSched (newId : Ident3) (s : RWState) : List RWStep → RWState
  | [] => s
  | st :: rest => runSched newId (rwStep newId s st) rest

/-- The identity the reader has observed after the schedule has run from the
old identity. -/
def observedIdentity (oldId newId : Ident3) (sched : List RWStep) : Ident3 :=
  (runSched newId ⟨oldId, ⟨"", "", ""⟩⟩ sched).buf

/-- A schedule is a legal interleaving: each thread's steps occur exactly
once and in program order. -/
def isInterleaving (sched : List RWStep) : Bool :=
  sched.filter RWStep.isWrite == [.w1, .w2, .w3] &&
    sched.filter RWStep.isRead == [.r1, .r2, .r3]

/-! ### Claim statements quoted as propositions (for the refuted claims) -/

/-- Claim C1 as stated: on every exit of `sign_ipa`, every temporary file
created during the request has been deleted exactly once. -/
def claimC1 : Prop :=
  ∀ (st : IdentityState) (req : SignRequest) (env : SignEnv) (p : String),
    ((sign_ipa st req env).2.events.count (FileEvent.create p)) =
      ((sign_ipa st req env).2.events.count (FileEvent.delete p))

/-- Claim C4 as stated: every `/signIPA` request arriving with the identity
unset is answered 412 (with no zsign launch and no publish attempt). -/
def claimC4 : Prop :=
  ∀ (st : IdentityState) (req : SignRequest) (env : SignEnv),
    identityTruthy st = false →
      (sign_ipa st req env).1.status = 412 ∧
        (sign_ipa st req env).2.zsignCalls = 0 ∧
        (sign_ipa st req env).2.publishCalls = 0

/-- Claim C9 as stated: under every interleaving of the three identity
assignments with a concurrent three-field read, the reader observes either
the complete old identity or the complete new one. -/
def claimC9 : Prop :=
  ∀ (oldId newId : Ident3) (sched : List RWStep),
    isInterleaving sched = true →
      observedIdentity oldId newId sched = oldId ∨
        observedIdentity oldId newId sched = newId

/-! ### Concrete instances used to exercise the model -/

/-- An identity state as left by a successful upload. -/
def stDemo : IdentityState :=
  ⟨some "/app/uploads/cert_k.p12", some "pw", some "/app/uploads/profile_k.mobileprovision"⟩

/-- A well-formed `/signIPA` request carrying `app.ipa`. -/
def reqDemo : SignRequest := ⟨true, "app.ipa"⟩

/-- A `/signIPA` request with no `file` part at all. -/
def reqNoFile : SignRequest := ⟨false, "x"⟩

/-- Outside world: metadata extraction reports no metadata. -/
def envNoMeta : SignEnv := ⟨.pair none none, .raised "na", .raised "na", .raised "na"⟩

/-- Outside world: metadata extraction returns the bare `None`. -/
def envBare : SignEnv := ⟨.bare, .raised "na", .raised "na", .raised "na"⟩

/-- Outside world: extraction succeeds, zsign exits 1 with stderr `bad key`. -/
def envBadKey : SignEnv :=
  ⟨.pair (some "Foo") (some "com.example.foo"), .exits 1 "bad key", .raised "na", .raised "na"⟩

/-- Outside world: every step succeeds. -/
def envAllOk : SignEnv :=
  ⟨.pair (some "Foo") (some "com.example.foo"), .exits 0 "",
    .response 200 " https://x/y.ipa ", .response 200 " https://x/m.plist "⟩

/-- The event trace of a fully successful `/signIPA` request: three files
created, then each removed once by the cleanup block. -/
def fullCycleEvents : List FileEvent :=
  [.create ipaPath, .create signedPath, .create manifestPath,
   .delete ipaPath, .delete signedPath, .delete manifestPath]

/-- An upload request passing every validation gate. -/
def certOkReq : CertRequest :=
  ⟨true, true, "cert.p12", "profile.mobileprovision", "pw", "t1", false⟩

/-- An upload request rejected for its empty password. -/
def certEmptyPwReq : CertRequest :=
  ⟨true, true, "cert.p12", "profile.mobileprovision", "", "t2", false⟩

/-- An archive whose application bundle sits at the standard top-level
location `Payload/Foo.app/`, complete with its `Info.plist`. -/
def topPayloadZip : ZipFile :=
  ⟨true, ["Payload/", "Payload/Foo.app/", "Payload/Foo.app/Info.plist"],
   fun p =>
     if p = "Payload/Foo.app/Info.plist" then
       some ⟨some "Foo", none, some "com.example.foo"⟩
     else none⟩

/-- An archive with no application-bundle entry at all. -/
def noBundleZip : ZipFile := ⟨true, ["README.txt"], fun _ => none⟩

/-- A corrupt or non-zip input: opening it raises. -/
def corruptZip : ZipFile := ⟨false, [], fun _ => none⟩

/-- An archive whose bundle directory is found (nested `Payload`) but holds
no `Info.plist` at its root. -/
def noPlistZip : ZipFile := ⟨true, ["apps/Payload/Foo.app/"], fun _ => none⟩

/-- The identity in place before a replacement upload. -/
def oldIdent : Ident3 := ⟨"oldKey.p12", "oldPass", "oldProfile.mobileprovision"⟩

/-- The identity a replacement upload writes. -/
def newIdent : Ident3 := ⟨"newKey.p12", "newPass", "newProfile.mobileprovision"⟩

/-- A legal interleaving in which the reader runs between the first and
second field assignments of the writer. -/
def mixSched : List RWStep := [.w1, .r1, .r2, .r3, .w2, .w3]

/-! ### Spec-side comparison values for the manifest claim -/

/-- The sole item of a manifest, when the `items` array has exactly one. -/
def soleItem (v : PValue) : Option PValue :=
  match plistItems v with
  | some [item] => some item
  | _ => none

/-- The assets list the spec prescribes for the sole manifest item:
`[{kind: software-package, url: <archive URL>}]`. -/
def specAssets (ipa_url : String) : PValue :=
  .arr [.dict [("kind", .str "software-package"), ("url", .str ipa_url)]]

/-- The metadata dictionary the spec prescribes for the sole manifest item,
with `bundle-version` fixed to the literal `1.0`. -/
def specMetadata (app_name bundle_id : String) : PValue :=
  .dict [("bundle-identifier", .str bundle_id), ("bundle-version", .str "1.0"),
         ("kind", .str "software"), ("title", .str app_name)]

theorem afterLastDot_append (pre ext : List Char) (h : ext.contains '.' = false) :
    afterLastDot (pre ++ '.' :: ext) = ext := by
  induction pre with
  | nil =>
    simp only [List.nil_append, afterLastDot]
    rw [if_pos]
    exact ⟨by trivial, by simp_all⟩
  | cons c pre ih =>
    rw [List.cons_append]
    simp only [afterLastDot]
    rw [if_neg, ih]
    rintro ⟨-, hnc⟩
    exact hnc (by simp)

theorem contains_dot_decomp (cs : List Char) (h : cs.contains '.' = true) :
    ∃ pre, cs = pre ++ '.' :: afterLastDot cs ∧ (afterLastDot cs).contains '.' = false := by
  induction cs with
  | nil => simp at h
  | cons c cs ih =>
    by_cases hcs : cs.contains '.' = true
    · obtain ⟨pre, hdec, hnd⟩ := ih hcs
      have hred : afterLastDot (c :: cs) = afterLastDot cs := by
        simp only [afterLastDot]
        rw [if_neg]
        rintro ⟨-, hnc⟩
        exact hnc hcs
      refine ⟨c :: pre, ?_, by rw [hred]; exact hnd⟩
      rw [hred, List.cons_append]
      exact congrArg (c :: ·) hdec
    · have hc : c = '.' := by
        simp at h hcs
        exact (h.resolve_right hcs).symm
      subst hc
      have hred : afterLastDot ('.' :: cs) = cs := by
        simp only [afterLastDot]
        rw [if_pos]
        exact ⟨by trivial, hcs⟩
      refine ⟨[], ?_, ?_⟩
      · rw [hred]; rfl
      · rw [hred]; simp_all

/-- C10: `allowed_file` accepts a filename exactly when it contains a dot and
the lowercased substring after the last dot is an allowed extension; matching
is case-insensitive and a dot-free name is rejected. -/
theorem allowed_file_mechanism :
    (∀ (filename : String) (exts : List String),
        allowed_file filename exts = true ↔
          ∃ pre ext : List Char, filename.data = pre ++ '.' :: ext ∧
            ext.contains '.' = false ∧ exts.contains (pyLower ⟨ext⟩) = true) ∧
      allowed_file "App.IPA" ["ipa"] = true ∧
      allowed_file "cert.P12" ["p12"] = true ∧
      allowed_file "p12" ["p12"] = false := by
  refine ⟨?_, by decide, by decide, by decide⟩
  intro filename exts
  constructor
  · intro hall
    unfold allowed_file at hall
    obtain ⟨h1, h2⟩ := Bool.and_eq_true _ _ |>.mp hall
    obtain ⟨pre, hdec, hnd⟩ := contains_dot_decomp _ h1
    exact ⟨pre, afterLastDot filename.data, hdec, hnd, h2⟩
  · rintro ⟨pre, ext, hdec, hnd, hmem⟩
    unfold allowed_file
    rw [hdec, afterLastDot_append pre ext hnd]
    simp at hmem
    simp [hmem]

theorem allowed_file_mechanism_witness :
    allowed_file "App.IPA" ["ipa"] = true ∧ allowed_file "p12" ["p12"] = false :=
  ⟨allowed_file_mechanism.2.1, allowed_file_mechanism.2.2.2⟩

/-- C2 (code bug): an archive whose application bundle is the standard
top-level `Payload/Foo.app/` entry is not located by the bundle search —
the `'/Payload/' in name` test requires a leading slash — so
`extract_app_info` reports no metadata instead of reading `Info.plist`. -/
theorem top_level_payload_missed :
    topPayloadZip.names.contains "Payload/Foo.app/" = true ∧
      findAppDir topPayloadZip.names = none ∧
      extract_app_info topPayloadZip = .pair none none := by
  refine ⟨by decide, by decide, by decide⟩

/-- C3 (code bug): a corrupt input and a bundle-less archive do return the
`(None, None)` pair, but an archive whose (found) bundle directory lacks
`Info.plist` makes `extract_app_info` fall off the end and return a bare
`None`; the caller's unpacking then raises, so `/signIPA` answers 500, not
the claimed 400. -/
theorem extract_missing_plist_bare :
    extract_app_info corruptZip = .pair none none ∧
      extract_app_info noBundleZip = .pair none none ∧
      extract_app_info noPlistZip = .bare ∧
      (sign_ipa stDemo reqDemo envBare).1.status = 500 ∧
      (sign_ipa stDemo reqDemo envNoMeta).1.status = 400 := by
  refine ⟨by decide, by decide, by decide, by decide, by decide⟩

/-- C7: for every app name, bundle id and archive URL the manifest has one
sole item, whose assets are the one-element software-package list with the
given URL and whose metadata carries the given bundle id and title with
`bundle-version` fixed to the literal `1.0`. -/
theorem create_manifest_structure :
    ∀ (app_name bundle_id ipa_url : String),
      ((soleItem (create_manifest_plist app_name bundle_id ipa_url)).bind
          (fun item => plistGet item "assets") = some (specAssets ipa_url)) ∧
        ((soleItem (create_manifest_plist app_name bundle_id ipa_url)).bind
          (fun item => plistGet item "metadata") = some (specMetadata app_name bundle_id)) := by
  intro app_name bundle_id ipa_url
  exact ⟨rfl, rfl⟩

theorem create_manifest_structure_witness :
    (soleItem (create_manifest_plist "Foo" "com.example.foo" "https://x/y.ipa")).bind
      (fun item => plistGet item "metadata") = some (specMetadata "Foo" "com.example.foo") :=
  (create_manifest_structure "Foo" "com.example.foo" "https://x/y.ipa").2

/-- C9 (counterexample): the interleaving in which the reader runs between
the first and second assignments observes the new key-bundle path together
with the old passphrase and old profile path — neither the complete old nor
the complete new identity. -/
theorem identity_replace_not_atomic : ¬ claimC9 := by
  intro h
  rcases h oldIdent newIdent mixSched (by decide) with h1 | h1 <;> exact absurd h1 (by decide)

/-- C9 (amended): the three-assignment replacement is atomic only when the
read does not interleave with it — a reader completing before the first
assignment observes the complete old identity and one starting after the
last observes the complete new one; interleaved reads can observe a mix. -/
theorem identity_replace_atomic_when_separated :
    ∀ oldId newId : Ident3,
      isInterleaving [.r1, .r2, .r3, .w1, .w2, .w3] = true ∧
        isInterleaving [.w1, .w2, .w3, .r1, .r2, .r3] = true ∧
        observedIdentity oldId newId [.r1, .r2, .r3, .w1, .w2, .w3] = oldId ∧
        observedIdentity oldId newId [.w1, .w2, .w3, .r1, .r2, .r3] = newId := by
  intro oldId newId
  exact ⟨by decide, by decide, rfl, rfl⟩

theorem identity_replace_atomic_when_separated_witness :
    observedIdentity oldIdent newIdent [.r1, .r2, .r3, .w1, .w2, .w3] = oldIdent :=
  (identity_replace_atomic_when_separated oldIdent newIdent).2.2.1

/-- C6: the publisher makes exactly one upload attempt per call; the
caller-observed result is falsy exactly when the transport raised, the
status was not 200, or the stripped body is empty; and otherwise the
returned URL is the response body with surrounding whitespace stripped,
unmodified. -/
theorem upload_single_attempt_result :
    ∀ tr : TransportResult,
      (upload_to_transfer_sh tr).2 = 1 ∧
        pyFalsy (upload_to_transfer_sh tr).1 = uploadFails tr ∧
        (∀ code body, tr = .response code body → uploadFails tr = false →
          (upload_to_transfer_sh tr).1 = some (pyStrip body)) := by
  intro tr
  cases tr with
  | raised msg => exact ⟨rfl, rfl, by rintro _ _ ⟨⟩⟩
  | response code body =>
    by_cases hc : code = 200
    · subst hc
      refine ⟨rfl, ?_, ?_⟩
      · simp [upload_to_transfer_sh, uploadFails, pyFalsy]
      · rintro _ _ ⟨⟩ _
        simp [upload_to_transfer_sh]
    · refine ⟨by simp [upload_to_transfer_sh, hc], ?_, ?_⟩
      · simp [upload_to_transfer_sh, uploadFails, pyFalsy, hc]
      · rintro _ _ ⟨⟩ hfail
        simp [uploadFails, hc] at hfail
theorem upload_single_attempt_result_witness :
    (upload_to_transfer_sh (.response 200 " https://x/y.ipa ")).1 = some "https://x/y.ipa" := by
  have h := (upload_single_attempt_result (.response 200 " https://x/y.ipa ")).2.2
    200 " https://x/y.ipa " rfl (by decide)
  rw [h]
  decide

/-- C1 (counterexample): when metadata extraction reports no metadata, the
request exits 400 with the saved input archive created but never deleted. -/
theorem sign_ipa_leaks_on_failure : ¬ claimC1 := by
  intro h
  exact absurd (h stDemo reqDemo envNoMeta ipaPath) (by decide)

set_option maxHeartbeats 1000000 in
/-- C1 (amended): temporary files are released only on the success exit,
where each of the three files is deleted exactly once; on every non-200 exit
no `os.remove` runs at all, so the files created before the failure point
remain. -/
theorem sign_ipa_cleanup_success_only :
    ∀ (st : IdentityState) (req : SignRequest) (env : SignEnv),
      ((sign_ipa st req env).1.status = 200 →
        (sign_ipa st req env).2.events = fullCycleEvents) ∧
      ((sign_ipa st req env).1.status ≠ 200 →
        ∀ p, (sign_ipa st req env).2.events.count (FileEvent.delete p) = 0) := by
  intro st req env
  unfold sign_ipa
  cases hz : (sign_ipa_with_zsign st env.zsignProc).success
  all_goals repeat' split
  all_goals simp [hz, fullCycleEvents, List.count_cons, List.count_nil]

theorem sign_ipa_cleanup_success_only_witness :
    (sign_ipa stDemo reqDemo envAllOk).2.events = fullCycleEvents ∧
      (sign_ipa stDemo reqDemo envBadKey).2.events.count (FileEvent.delete ipaPath) = 0 :=
  ⟨(sign_ipa_cleanup_success_only stDemo reqDemo envAllOk).1 (by decide),
   (sign_ipa_cleanup_success_only stDemo reqDemo envBadKey).2 (by decide) ipaPath⟩

/-- C4 (counterexample): a request with no `file` part and the identity
unset is answered 400, not 412 — the file checks run before the identity
check. -/
theorem sign_ipa_no_identity_counterexample : ¬ claimC4 := by
  intro h
  exact absurd (h initialIdentity reqNoFile envNoMeta (by decide)).1 (by decide)

/-- C4 (amended): with the identity unset the signer subprocess is never
launched and no publish attempt is made, whatever the request; and if the
request passes file validation the response is exactly the 412. -/
theorem sign_ipa_no_identity_rejects :
    ∀ (st : IdentityState) (req : SignRequest) (env : SignEnv),
      identityTruthy st = false →
        (sign_ipa st req env).2.zsignCalls = 0 ∧
          (sign_ipa st req env).2.publishCalls = 0 ∧
          (req.hasFile = true → allowed_file req.filename ["ipa"] = true →
            (sign_ipa st req env).1.status = 412) := by
  intro st req env hid
  unfold sign_ipa
  cases hf : req.hasFile
  · simp
  · cases ha : allowed_file req.filename ["ipa"]
    · simp [ha]
    · simp [ha, hid]

theorem sign_ipa_no_identity_rejects_witness :
    (sign_ipa initialIdentity reqDemo envNoMeta).1.status = 412 ∧
      (sign_ipa initialIdentity reqDemo envNoMeta).2.zsignCalls = 0 :=
  ⟨(sign_ipa_no_identity_rejects initialIdentity reqDemo envNoMeta (by decide)).2.2
      (by decide) (by decide),
   (sign_ipa_no_identity_rejects initialIdentity reqDemo envNoMeta (by decide)).1⟩

/-- C5: `sign_ipa_with_zsign` succeeds exactly when the subprocess runs and
exits 0; it launches the subprocess at most once; a non-zero exit yields the
message `zsign error: <stderr>` with the stderr text verbatim; and through
the pipeline such a failure produces a 500 carrying that message after a
single subprocess launch. -/
theorem zsign_exit_code_determines_result :
    ∀ (st : IdentityState) (proc : SubprocessOutcome),
      ((sign_ipa_with_zsign st proc).success = true ↔
          (identityTruthy st = true ∧ ∃ stderr, proc = .exits 0 stderr)) ∧
        (sign_ipa_with_zsign st proc).procCalls ≤ 1 ∧
        (∀ rc stderr, identityTruthy st = true → proc = .exits rc stderr → rc ≠ 0 →
          (sign_ipa_with_zsign st proc).message = "zsign error: " ++ stderr) ∧
        (∀ (req : SignRequest) (env : SignEnv) (a b : Option String) (rc : Nat)
            (stderr : String),
          identityTruthy st = true → req.hasFile = true →
          allowed_file req.filename ["ipa"] = true →
          env.extractRet = .pair a b → pyFalsy a = false → pyFalsy b = false →
          env.zsignProc = .exits rc stderr → rc ≠ 0 →
          (sign_ipa st req env).1.status = 500 ∧
            (sign_ipa st req env).1.message = "zsign error: " ++ stderr ∧
            (sign_ipa st req env).2.zsignCalls = 1) := by
  intro st proc
  refine ⟨?_, ?_, ?_, ?_⟩
  · cases hid : identityTruthy st
    · simp [sign_ipa_with_zsign, hid]
    · cases proc with
      | exits rc stderr =>
        by_cases h0 : rc = 0 <;> simp [sign_ipa_with_zsign, hid, h0]
      | raised m => simp [sign_ipa_with_zsign, hid]
  · unfold sign_ipa_with_zsign
    repeat' split
    all_goals simp
  · intro rc stderr hid hp h0
    subst hp
    simp [sign_ipa_with_zsign, hid, h0]
  · intro req env a b rc stderr hid hf ha hext hfa hfb hz h0
    unfold sign_ipa
    rw [hext]
    simp [hf, ha, hid, hfa, hfb, sign_ipa_with_zsign, hz, h0]

theorem zsign_exit_code_determines_result_witness :
    (sign_ipa_with_zsign stDemo (.exits 1 "bad key")).message = "zsign error: " ++ "bad key" ∧
      (sign_ipa stDemo reqDemo envBadKey).1.status = 500 ∧
      (sign_ipa stDemo reqDemo envBadKey).1.message = "zsign error: " ++ "bad key" :=
  ⟨(zsign_exit_code_determines_result stDemo (.exits 1 "bad key")).2.2.1 1 "bad key"
      (by decide) rfl (by decide),
   ((zsign_exit_code_determines_result stDemo (.exits 1 "bad key")).2.2.2 reqDemo envBadKey
      (some "Foo") (some "com.example.foo") 1 "bad key" (by decide) (by decide) (by decide)
      rfl (by decide) (by decide) rfl (by decide)).1,
   ((zsign_exit_code_determines_result stDemo (.exits 1 "bad key")).2.2.2 reqDemo envBadKey
      (some "Foo") (some "com.example.foo") 1 "bad key" (by decide) (by decide) (by decide)
      rfl (by decide) (by decide) rfl (by decide)).2.1⟩

theorem upload_certificates_state (st : IdentityState) (req : CertRequest) :
    (upload_certificates st req).1 = if certAccepted req = true then storedOf req else st := by
  unfold upload_certificates certAccepted
  cases h1 : req.hasP12 <;> cases h2 : req.hasProvision <;>
    cases h3 : req.password == "" <;>
      cases h4 : allowed_file req.p12Filename ["p12"] <;>
        cases h5 : allowed_file req.provisionFilename ["mobileprovision"] <;>
          cases h6 : req.saveRaises <;>
            simp_all

theorem stepOp_consistent (st : IdentityState) (op : ServerOp)
    (h : identityConsistent st) : identityConsistent (stepOp st op) := by
  cases op with
  | signIPA req env => exact h
  | uploadCert req =>
    show identityConsistent (upload_certificates st req).1
    rw [upload_certificates_state]
    split
    · exact Or.inr ⟨req, by assumption, rfl⟩
    · exact h

theorem runOps_consistent (ops : List ServerOp) :
    ∀ st, identityConsistent st → identityConsistent (runOps st ops) := by
  induction ops with
  | nil => intro st h; exact h
  | cons op rest ih => intro st h; exact ih _ (stepOp_consistent st op h)

/-- C8: after any sequence of handled requests the identity globals are
either still all `None` or all three set by one and the same accepted upload
(whose password the validation forces non-empty); and a rejected upload
leaves the prior identity unchanged. -/
theorem identity_all_or_none :
    (∀ ops : List ServerOp, identityConsistent (runOps initialIdentity ops)) ∧
      (∀ (st : IdentityState) (req : CertRequest), certAccepted req = false →
        (upload_certificates st req).1 = st) := by
  constructor
  · intro ops
    exact runOps_consistent ops initialIdentity (Or.inl rfl)
  · intro st req h
    rw [upload_certificates_state]
    simp [h]

theorem identity_all_or_none_witness :
    identityConsistent (runOps initialIdentity [.uploadCert certOkReq]) ∧
      (upload_certificates stDemo certEmptyPwReq).1 = stDemo :=
  ⟨identity_all_or_none.1 [.uploadCert certOkReq],
   identity_all_or_none.2 stDemo certEmptyPwReq (by decide)⟩
